import Mathlib

/-!
Verification of the climate MSSQL MCP server (src/server.py).

This file gives a shallow embedding of the server's statement builders,
per-operation executors and the call_tool dispatcher, together with theorems
settling the specification claims.  The database client (pymssql) and the
database itself are external collaborators; they are modelled by an `Oracle`
that says whether connection acquisition raises, whether the k-th execute of
a call raises, and what data the cursor returns.  Each operation is embedded
as a function from its arguments (and the oracle) to a result plus the
ordered trace of database-side events it performs.
-/

namespace ClimateMssql

/-- SQL-bindable values carried from the caller into statement parameters. -/
inductive Value
  | str (s : String)
  | int (n : Int)
  | bool (b : Bool)
  | null
  deriving DecidableEq

/-- A row object: an insertion-ordered mapping from column name to value,
modelling a Python dict (keys listed in insertion order, as dict.keys does). -/
abbrev PyDict := List (String × Value)

/-- Python exception kinds the server can raise, with the text str(e) yields
for each: ValueError prints its message, KeyError prints the quoted key. -/
inductive PyErr
  | valueError (msg : String)
  | keyError (key : String)
  | typeError (msg : String)
  | dbError (msg : String)
  deriving DecidableEq

/-- Text produced when the dispatcher formats the exception with str(e). -/
def PyErr.toMessage : PyErr → String
  | .valueError m => m
  | .keyError k => "\x27" ++ k ++ "\x27"
  | .typeError m => m
  | .dbError m => m

/-- Observable database-side events of one operation call, in order. -/
inductive Ev
  | connect
  | execute (sql : String) (params : List Value)
  | commit
  | rollback
  | close
  deriving DecidableEq

/-- One row of INFORMATION_SCHEMA.COLUMNS as fetched by describe_table. -/
structure ColumnInfo where
  columnName : String
  dataType : String
  maxLen : Option Int
  isNullable : String
  columnDefault : Option String
  deriving DecidableEq

/-- Environment model for pymssql and the database: whether get_connection
raises, whether the k-th execute of the current call raises, and the data a
cursor fetch returns.  `dumps` stands for json.dumps in read_data. -/
structure Oracle where
  connectErr : Option String := none
  execErr : Nat → Option String := fun _ => none
  fetchTables : List (String × String) := []
  fetchColumns : List ColumnInfo := []
  fetchRows : List PyDict := []
  dumps : List PyDict → String := fun _ => "[]"
  rowcount : Nat := 0

/-- Result and database-event trace of one operation call. -/
structure OpRun where
  result : Except PyErr String
  trace : List Ev

/-- Whether an Except result is a success (the Python call did not raise). -/
def resOk : Except PyErr String → Bool
  | .ok _ => true
  | .error _ => false

/-- Trace predicate: the event is a cursor.execute. -/
def isExec : Ev → Bool
  | .execute _ _ => true
  | _ => false

/-- Trace predicate: the event is a conn.commit. -/
def isCommit : Ev → Bool
  | .commit => true
  | _ => false

/-- Trace predicate: the event is a conn.rollback. -/
def isRollback : Ev → Bool
  | .rollback => true
  | _ => false

/-- Number of events in a trace satisfying the predicate. -/
def countEv (p : Ev → Bool) (tr : List Ev) : Nat :=
  (tr.filter p).length

/-! ## list_tables (src/server.py lines 258-289) -/

/-- SQL text of list_tables when a schema filter is given (lines 266-273):
one %s placeholder per schema inside the IN list.  The text is a function of
the number of schemas only; the schema values themselves are bound. -/
def listTablesFilteredQuery (n : Nat) : String :=
  "\n                SELECT TABLE_SCHEMA, TABLE_NAME\n                FROM INFORMATION_SCHEMA.TABLES\n                WHERE TABLE_TYPE = \x27BASE TABLE\x27\n                AND TABLE_SCHEMA IN (" ++
    String.intercalate "," (List.replicate n "%s") ++
    ")\n                ORDER BY TABLE_SCHEMA, TABLE_NAME\n            "

/-- SQL text of list_tables without a schema filter (lines 276-281). -/
def listTablesQuery : String :=
  "\n                SELECT TABLE_SCHEMA, TABLE_NAME\n                FROM INFORMATION_SCHEMA.TABLES\n                WHERE TABLE_TYPE = \x27BASE TABLE\x27\n                ORDER BY TABLE_SCHEMA, TABLE_NAME\n            "

/-- list_tables: connect, run the catalog query (binding the schema filter
values positionally when present), join the fetched (schema, table) pairs
with newlines, and close in a final step. -/
def listTables (oracle : Oracle) (schemas : List String) : OpRun :=
  match oracle.connectErr with
  | some e => { result := .error (.dbError e), trace := [] }
  | none =>
    if schemas = [] then
      match oracle.execErr 0 with
      | some e => { result := .error (.dbError e), trace := [Ev.connect, Ev.close] }
      | none =>
        let joined := String.intercalate "\n"
          (oracle.fetchTables.map fun p => p.1 ++ "." ++ p.2)
        { result := .ok (if joined = "" then "No tables found" else joined),
          trace := [Ev.connect, Ev.execute listTablesQuery [], Ev.close] }
    else
      match oracle.execErr 0 with
      | some e => { result := .error (.dbError e), trace := [Ev.connect, Ev.close] }
      | none =>
        let joined := String.intercalate "\n"
          (oracle.fetchTables.map fun p => p.1 ++ "." ++ p.2)
        { result := .ok (if joined = "" then "No tables found" else joined),
          trace := [Ev.connect,
                    Ev.execute (listTablesFilteredQuery schemas.length) (schemas.map Value.str),
                    Ev.close] }

/-! ## describe_table (src/server.py lines 292-330) -/

/-- SQL text of describe_table (lines 299-309): the table name is passed as
a bound parameter (%s), never concatenated. -/
def describeTableQuery : String :=
  "\n            SELECT\n                COLUMN_NAME,\n                DATA_TYPE,\n                CHARACTER_MAXIMUM_LENGTH,\n                IS_NULLABLE,\n                COLUMN_DEFAULT\n            FROM INFORMATION_SCHEMA.COLUMNS\n            WHERE TABLE_NAME = %s\n            ORDER BY ORDINAL_POSITION\n        "

/-- Formatting of one fetched column row (lines 317-325), with Python
truthiness: a zero max length and an empty default are skipped. -/
def formatColumn (c : ColumnInfo) : String :=
  let base := c.columnName ++ " " ++ c.dataType
  let base := match c.maxLen with
    | some n => if n ≠ 0 then base ++ "(" ++ toString n ++ ")" else base
    | none => base
  let base := if c.isNullable = "NO" then base ++ " NOT NULL" else base
  match c.columnDefault with
  | some d => if d ≠ "" then base ++ " DEFAULT " ++ d else base
  | none => base

/-- describe_table: connect, run the bound-parameter catalog query, format
the fetched columns (or report the table as not found), close. -/
def describeTable (oracle : Oracle) (tableName : String) : OpRun :=
  match oracle.connectErr with
  | some e => { result := .error (.dbError e), trace := [] }
  | none =>
    match oracle.execErr 0 with
    | some e => { result := .error (.dbError e), trace := [Ev.connect, Ev.close] }
    | none =>
      if oracle.fetchColumns = [] then
        { result := .ok ("Table \x27" ++ tableName ++ "\x27 not found"),
          trace := [Ev.connect, Ev.execute describeTableQuery [Value.str tableName], Ev.close] }
      else
        { result := .ok (String.intercalate "\n" (oracle.fetchColumns.map formatColumn)),
          trace := [Ev.connect, Ev.execute describeTableQuery [Value.str tableName], Ev.close] }

/-! ## read_data (src/server.py lines 333-353) -/

/-- Python str.isspace for the ASCII whitespace characters str.strip removes. -/
def pyIsSpace (c : Char) : Bool :=
  c = ' ' || c = '\t' || c = '\n' || c = '\r' || c = '\x0b' || c = '\x0c'

/-- Python str.strip(): drop whitespace from both ends. -/
def pyStrip (s : String) : String :=
  String.mk (((s.toList.dropWhile pyIsSpace).reverse.dropWhile pyIsSpace).reverse)

/-- Python str.upper(), mapping each character (ASCII case mapping). -/
def pyUpper (s : String) : String :=
  String.mk (s.toList.map Char.toUpper)

/-- Character-list version of startswith. -/
def pyStartsWithAux : List Char → List Char → Bool
  | [], _ => true
  | _ :: _, [] => false
  | c :: cs, d :: ds => c = d && pyStartsWithAux cs ds

/-- Python s.startswith(p). -/
def pyStartsWith (s p : String) : Bool :=
  pyStartsWithAux p.toList s.toList

/-- Character-list version of substring containment. -/
def containsSubAux (sub : List Char) : List Char → Bool
  | [] => pyStartsWithAux sub []
  | c :: cs => pyStartsWithAux sub (c :: cs) || containsSubAux sub cs

/-- Python (sub in s): whether sub occurs as a contiguous substring of s. -/
def strContains (s sub : String) : Bool :=
  containsSubAux sub.toList s.toList

/-- read_data: raise ValueError unless query.strip().upper() starts with
"SELECT" (line 335); otherwise connect and execute the caller's query text
verbatim with no bound parameters, returning json-formatted rows. -/
def readData (oracle : Oracle) (query : String) : OpRun :=
  if !(pyStartsWith (pyUpper (pyStrip query)) "SELECT") then
    { result := .error (.valueError "Query must start with SELECT"), trace := [] }
  else
    match oracle.connectErr with
    | some e => { result := .error (.dbError e), trace := [] }
    | none =>
      match oracle.execErr 0 with
      | some e => { result := .error (.dbError e), trace := [Ev.connect, Ev.close] }
      | none =>
        { result := .ok (if oracle.fetchRows = [] then "No results found"
                         else oracle.dumps oracle.fetchRows),
          trace := [Ev.connect, Ev.execute query [], Ev.close] }

/-! ## insert_data (src/server.py lines 356-389) -/

/-- The data argument of insert_data: a single record or a list of records. -/
inductive InsertArg
  | one (record : PyDict)
  | many (records : List PyDict)
  deriving DecidableEq

/-- Normalisation at line 364: records = [data] if isinstance(data, dict)
else data. -/
def recordsOf : InsertArg → List PyDict
  | .one r => [r]
  | .many rs => rs

/-- The INSERT statement text of lines 370-374: column names are taken from
the first record and concatenated; the values are all placeholders. -/
def insertQuery (tableName : String) (columns : List String) : String :=
  "INSERT INTO " ++ tableName ++ " (" ++ String.intercalate "," columns ++
    ") VALUES (" ++ String.intercalate "," (List.replicate columns.length "%s") ++ ")"

/-- Line 378, values = [record[col] for col in columns]: Python raises
KeyError when a record lacks one of the first record's columns. -/
def lookupAll (record : PyDict) : List String → Except PyErr (List Value)
  | [] => .ok []
  | c :: cs =>
    match List.lookup c record with
    | none => .error (.keyError c)
    | some v =>
      match lookupAll record cs with
      | .error e => .error e
      | .ok vs => .ok (v :: vs)

/-- The insert loop of lines 377-379.  Each iteration looks up the bound
values and executes the shared statement; `k` numbers the executes so the
oracle can make a chosen one raise.  On success it returns the staged rows
(uncommitted until conn.commit) and the execute events; on failure it
returns the raised error together with the events of the completed
iterations. -/
def insertLoop (oracle : Oracle) (q : String) (columns : List String) :
    List PyDict → Nat → Except (PyErr × List Ev) (List (List Value) × List Ev)
  | [], _ => .ok ([], [])
  | r :: rs, k =>
    match lookupAll r columns with
    | .error e => .error (e, [])
    | .ok values =>
      match oracle.execErr k with
      | some e => .error (.dbError e, [])
      | none =>
        match insertLoop oracle q columns rs (k + 1) with
        | .error (e, tr) => .error (e, Ev.execute q values :: tr)
        | .ok (rows, tr) => .ok (values :: rows, Ev.execute q values :: tr)

/-- Result, trace and final committed table state of one insert_data call. -/
structure InsertRun where
  result : Except PyErr String
  trace : List Ev
  table : List (List Value)

/-- Body of insert_data once the connection is open: return early on empty
data (line 366), otherwise build the statement from the first record's keys,
run the loop, and commit once after it — or roll back when the loop raised,
leaving the committed table unchanged.  The connection is closed on every
path. -/
def insertConnected (oracle : Oracle) (table : List (List Value))
    (tableName : String) (records : List PyDict) : InsertRun :=
  if records.isEmpty then
    { result := .ok "No data to insert", trace := [Ev.connect, Ev.close], table := table }
  else
    let columns := (records.headD []).map Prod.fst
    match insertLoop oracle (insertQuery tableName columns) columns records 0 with
    | .error (e, tr) =>
      { result := .error e,
        trace := Ev.connect :: (tr ++ [Ev.rollback, Ev.close]),
        table := table }
    | .ok (rows, tr) =>
      { result := .ok ("Inserted " ++ toString records.length ++ " record(s)"),
        trace := Ev.connect :: (tr ++ [Ev.commit, Ev.close]),
        table := table ++ rows }

/-- insert_data (lines 356-389): `table` is the committed contents of the
target table before the call; the returned `table` is its contents after. -/
def insertData (oracle : Oracle) (table : List (List Value))
    (tableName : String) (data : InsertArg) : InsertRun :=
  match oracle.connectErr with
  | some e => { result := .error (.dbError e), trace := [], table := table }
  | none => insertConnected oracle table tableName (recordsOf data)

/-! ## update_data (src/server.py lines 392-412) -/

/-- The UPDATE statement text of lines 399-400: a `col = %s` fragment per
updates key; the SET values are all bound, the whereClause is concatenated. -/
def updateQuery (tableName : String) (cols : List String) (whereClause : String) : String :=
  "UPDATE " ++ tableName ++ " SET " ++
    String.intercalate ", " (cols.map fun col => col ++ " = %s") ++
    " WHERE " ++ whereClause

/-- update_data: connect, execute the built statement binding the updates
values positionally, commit; roll back when the execute raised. -/
def updateData (oracle : Oracle) (tableName : String) (updates : PyDict)
    (whereClause : String) : OpRun :=
  match oracle.connectErr with
  | some e => { result := .error (.dbError e), trace := [] }
  | none =>
    match oracle.execErr 0 with
    | some e => { result := .error (.dbError e), trace := [Ev.connect, Ev.rollback, Ev.close] }
    | none =>
      { result := .ok ("Updated " ++ toString oracle.rowcount ++ " record(s)"),
        trace := [Ev.connect,
                  Ev.execute (updateQuery tableName (updates.map Prod.fst) whereClause)
                    (updates.map Prod.snd),
                  Ev.commit, Ev.close] }

/-! ## create_table (src/server.py lines 415-448) -/

/-- One entry of the columns argument, with the defaults of col.get used at
lines 427 and 430. -/
structure ColumnDef where
  name : String
  type : String
  nullable : Bool := true
  primaryKey : Bool := false
  deriving DecidableEq

/-- The loop of lines 423-431: build a `name type [NOT NULL]` definition per
column and collect the names of the columns flagged primaryKey, in order. -/
def collectColDefs : List ColumnDef → List String × List String
  | [] => ([], [])
  | col :: rest =>
    let acc := collectColDefs rest
    ((col.name ++ " " ++ col.type ++ (if !col.nullable then " NOT NULL" else "")) :: acc.1,
     (if col.primaryKey then [col.name] else []) ++ acc.2)

/-- The CREATE TABLE statement of lines 433-437: one trailing composite
PRIMARY KEY clause is appended when any column was flagged. -/
def createTableQuery (tableName : String) (columns : List ColumnDef) : String :=
  let acc := collectColDefs columns
  let colDefs :=
    if acc.2 = [] then acc.1
    else acc.1 ++ ["PRIMARY KEY (" ++ String.intercalate ", " acc.2 ++ ")"]
  "CREATE TABLE " ++ tableName ++ " (" ++ String.intercalate ", " colDefs ++ ")"

/-- create_table: connect, execute the built statement (no bound values),
commit; roll back when the execute raised. -/
def createTable (oracle : Oracle) (tableName : String) (columns : List ColumnDef) : OpRun :=
  match oracle.connectErr with
  | some e => { result := .error (.dbError e), trace := [] }
  | none =>
    match oracle.execErr 0 with
    | some e => { result := .error (.dbError e), trace := [Ev.connect, Ev.rollback, Ev.close] }
    | none =>
      { result := .ok ("Table \x27" ++ tableName ++ "\x27 created successfully"),
        trace := [Ev.connect, Ev.execute (createTableQuery tableName columns) [],
                  Ev.commit, Ev.close] }

/-! ## create_index (src/server.py lines 451-472) -/

/-- The CREATE INDEX statement of lines 458-460: index name, table name and
column names are all concatenated into the text. -/
def createIndexQuery (tableName indexName : String) (columns : List String)
    (unique : Bool) : String :=
  "CREATE " ++ (if unique then "UNIQUE " else "") ++ "INDEX " ++ indexName ++
    " ON " ++ tableName ++ " (" ++ String.intercalate ", " columns ++ ")"

/-- create_index: connect, execute the built statement, commit; roll back
when the execute raised. -/
def createIndex (oracle : Oracle) (tableName indexName : String)
    (columns : List String) (unique : Bool) : OpRun :=
  match oracle.connectErr with
  | some e => { result := .error (.dbError e), trace := [] }
  | none =>
    match oracle.execErr 0 with
    | some e => { result := .error (.dbError e), trace := [Ev.connect, Ev.rollback, Ev.close] }
    | none =>
      { result := .ok ("Index \x27" ++ indexName ++ "\x27 created successfully"),
        trace := [Ev.connect,
                  Ev.execute (createIndexQuery tableName indexName columns unique) [],
                  Ev.commit, Ev.close] }

/-! ## drop_table (src/server.py lines 475-493) -/

/-- The DROP TABLE statement of line 482: the table name is concatenated. -/
def dropTableQuery (tableName : String) : String :=
  "DROP TABLE " ++ tableName

/-- drop_table: connect, execute the built statement, commit; roll back when
the execute raised. -/
def dropTable (oracle : Oracle) (tableName : String) : OpRun :=
  match oracle.connectErr with
  | some e => { result := .error (.dbError e), trace := [] }
  | none =>
    match oracle.execErr 0 with
    | some e => { result := .error (.dbError e), trace := [Ev.connect, Ev.rollback, Ev.close] }
    | none =>
      { result := .ok ("Table \x27" ++ tableName ++ "\x27 dropped successfully"),
        trace := [Ev.connect, Ev.execute (dropTableQuery tableName) [], Ev.commit, Ev.close] }

/-! ## list_tools (src/server.py lines 45-218) -/

/-- One advertised tool descriptor (name and description only; the input
schemas are caller documentation with no behaviour here). -/
structure ToolDecl where
  name : String
  description : String
  deriving DecidableEq

/-- list_tools: the three read tools always, plus the five write tools only
when the READONLY flag is not set (line 96). -/
def listTools (readonly : Bool) : List ToolDecl :=
  let tools : List ToolDecl :=
    [{ name := "list_table",
       description := "Lists tables in the MSSQL Database, or list tables in specific schemas" },
     { name := "describe_table",
       description := "Describes the schema (columns and types) of a specified MSSQL Database table" },
     { name := "read_data",
       description := "Executes a SELECT query on an MSSQL Database table" }]
  if !readonly then
    tools ++
      [{ name := "insert_data", description := "Inserts data into an MSSQL Database table" },
       { name := "update_data",
         description := "Updates data in an MSSQL Database table using a WHERE clause" },
       { name := "create_table", description := "Creates a new table in the database" },
       { name := "create_index", description := "Creates an index on a table" },
       { name := "drop_table", description := "Drops a table from the database" }]
  else tools

/-! ## call_tool (src/server.py lines 221-255) -/

/-- One entry of the arguments bag, a JSON-ish value of the shapes the tools
declare. -/
inductive Arg
  | str (s : String)
  | strList (ss : List String)
  | obj (r : PyDict)
  | objList (rs : List PyDict)
  | colList (cs : List ColumnDef)
  | bool (b : Bool)
  deriving DecidableEq

/-- The arguments mapping passed to call_tool. -/
abbrev ArgBag := List (String × Arg)

/-- Python arguments[key]: KeyError when the key is absent. -/
def getItem (args : ArgBag) (key : String) : Except PyErr Arg :=
  match List.lookup key args with
  | some v => .ok v
  | none => .error (.keyError key)

/-- Coercion of an Arg to a string; a wrongly-shaped value raises, which the
dispatcher's except clause catches like any other exception. -/
def asStr : Arg → Except PyErr String
  | .str s => .ok s
  | _ => .error (.typeError "expected a string")

/-- Coercion of the insert_data data argument (single object or array). -/
def asInsertArg : Arg → Except PyErr InsertArg
  | .obj r => .ok (.one r)
  | .objList rs => .ok (.many rs)
  | _ => .error (.typeError "expected an object or an array of objects")

/-- Coercion of an Arg to an object. -/
def asObj : Arg → Except PyErr PyDict
  | .obj r => .ok r
  | _ => .error (.typeError "expected an object")

/-- Coercion of an Arg to an array of strings. -/
def asStrList : Arg → Except PyErr (List String)
  | .strList ss => .ok ss
  | _ => .error (.typeError "expected an array of strings")

/-- Coercion of an Arg to an array of column definitions. -/
def asColList : Arg → Except PyErr (List ColumnDef)
  | .colList cs => .ok cs
  | _ => .error (.typeError "expected an array of column definitions")

/-- Coercion of an Arg to a boolean. -/
def asBool : Arg → Except PyErr Bool
  | .bool b => .ok b
  | _ => .error (.typeError "expected a boolean")

/-- arguments[key] followed by a string coercion. -/
def getStr (args : ArgBag) (key : String) : Except PyErr String :=
  match getItem args key with
  | .error e => .error e
  | .ok a => asStr a

/-- The routing of call_tool's try block (lines 225-251): name comparison
and the READONLY gate in each elif, falling through to the Unknown tool
response.  Returns the would-be response value, the database events, and the
final state of the insert target table. -/
def dispatch (readonly : Bool) (oracle : Oracle) (table : List (List Value))
    (name : String) (args : ArgBag) :
    Except PyErr String × List Ev × List (List Value) :=
  if name = "list_table" then
    match (match List.lookup "parameters" args with
           | some a => asStrList a
           | none => .ok []) with
    | .error e => (.error e, [], table)
    | .ok schemas =>
      let run := listTables oracle schemas
      (run.result, run.trace, table)
  else if name = "describe_table" then
    match getStr args "tableName" with
    | .error e => (.error e, [], table)
    | .ok t =>
      let run := describeTable oracle t
      (run.result, run.trace, table)
  else if name = "read_data" then
    match getStr args "query" with
    | .error e => (.error e, [], table)
    | .ok q =>
      let run := readData oracle q
      (run.result, run.trace, table)
  else if name = "insert_data" ∧ readonly = false then
    match getStr args "tableName" with
    | .error e => (.error e, [], table)
    | .ok t =>
      match (match getItem args "data" with
             | .error e => .error e
             | .ok a => asInsertArg a : Except PyErr InsertArg) with
      | .error e => (.error e, [], table)
      | .ok d =>
        let run := insertData oracle table t d
        (run.result, run.trace, run.table)
  else if name = "update_data" ∧ readonly = false then
    match getStr args "tableName" with
    | .error e => (.error e, [], table)
    | .ok t =>
      match (match getItem args "updates" with
             | .error e => .error e
             | .ok a => asObj a : Except PyErr PyDict) with
      | .error e => (.error e, [], table)
      | .ok u =>
        match getStr args "whereClause" with
        | .error e => (.error e, [], table)
        | .ok w =>
          let run := updateData oracle t u w
          (run.result, run.trace, table)
  else if name = "create_table" ∧ readonly = false then
    match getStr args "tableName" with
    | .error e => (.error e, [], table)
    | .ok t =>
      match (match getItem args "columns" with
             | .error e => .error e
             | .ok a => asColList a : Except PyErr (List ColumnDef)) with
      | .error e => (.error e, [], table)
      | .ok cs =>
        let run := createTable oracle t cs
        (run.result, run.trace, table)
  else if name = "create_index" ∧ readonly = false then
    match getStr args "tableName" with
    | .error e => (.error e, [], table)
    | .ok t =>
      match getStr args "indexName" with
      | .error e => (.error e, [], table)
      | .ok idx =>
        match (match getItem args "columns" with
               | .error e => .error e
               | .ok a => asStrList a : Except PyErr (List String)) with
        | .error e => (.error e, [], table)
        | .ok cs =>
          match (match List.lookup "unique" args with
                 | some a => asBool a
                 | none => .ok false) with
          | .error e => (.error e, [], table)
          | .ok u =>
            let run := createIndex oracle t idx cs u
            (run.result, run.trace, table)
  else if name = "drop_table" ∧ readonly = false then
    match getStr args "tableName" with
    | .error e => (.error e, [], table)
    | .ok t =>
      let run := dropTable oracle t
      (run.result, run.trace, table)
  else
    (.ok ("Unknown tool: " ++ name), [], table)

/-- The caller-visible outcome of one call_tool invocation: the single text
payload, the database events, and the final insert target table state. -/
structure CallRun where
  text : String
  trace : List Ev
  table : List (List Value)

/-- call_tool (lines 221-255): the try block's value becomes the single text
response; any raised exception is converted by the except clause into the
text `Error occurred: str(e)`. -/
def callTool (readonly : Bool) (oracle : Oracle) (table : List (List Value))
    (name : String) (args : ArgBag) : CallRun :=
  match dispatch readonly oracle table name args with
  | (.ok r, tr, tb) => { text := r, trace := tr, table := tb }
  | (.error e, tr, tb) =>
    { text := "Error occurred: " ++ PyErr.toMessage e, trace := tr, table := tb }

/-! ## Helper lemmas -/

/-- `collectColDefs` builds one `name type [NOT NULL]` fragment per column,
in order, and none of these per-column fragments is a key constraint. -/
theorem collectColDefs_fst (columns : List ColumnDef) :
    (collectColDefs columns).1 =
      columns.map fun col =>
        col.name ++ " " ++ col.type ++ (if !col.nullable then " NOT NULL" else "") := by
  induction columns with
  | nil => rfl
  | cons c cs ih => simp [collectColDefs, ih]

/-- The primary-key names collected by `collectColDefs` are exactly the
names of the columns flagged primaryKey, in their given order. -/
theorem collectColDefs_snd (columns : List ColumnDef) :
    (collectColDefs columns).2 =
      (columns.filter fun c => c.primaryKey).map ColumnDef.name := by
  induction columns with
  | nil => rfl
  | cons c cs ih =>
    cases hc : c.primaryKey <;> simp [collectColDefs, List.filter_cons, hc, ih]

/-- Counting over an appended trace splits additively. -/
theorem countEv_append (p : Ev → Bool) (l₁ l₂ : List Ev) :
    countEv p (l₁ ++ l₂) = countEv p l₁ + countEv p l₂ := by
  simp [countEv, List.filter_append]

/-- Counting past a head event the predicate rejects. -/
theorem countEv_cons_neg {p : Ev → Bool} {e : Ev} (h : p e = false) (l : List Ev) :
    countEv p (e :: l) = countEv p l := by
  simp [countEv, List.filter_cons, h]

/-- Counting a head event the predicate accepts. -/
theorem countEv_cons_pos {p : Ev → Bool} {e : Ev} (h : p e = true) (l : List Ev) :
    countEv p (e :: l) = countEv p l + 1 := by
  simp [countEv, List.filter_cons, h]

/-- A block of execute events counts one execute per staged row. -/
theorem countEv_exec_execs (q : String) (rows : List (List Value)) :
    countEv isExec (rows.map (Ev.execute q)) = rows.length := by
  induction rows with
  | nil => rfl
  | cons v vs ih => rw [List.map_cons, countEv_cons_pos rfl, ih, List.length_cons]

/-- A block of execute events contains no commit. -/
theorem countEv_commit_execs (q : String) (rows : List (List Value)) :
    countEv isCommit (rows.map (Ev.execute q)) = 0 := by
  induction rows with
  | nil => rfl
  | cons v vs ih => rw [List.map_cons, countEv_cons_neg rfl, ih]

/-- A block of execute events contains no rollback. -/
theorem countEv_rollback_execs (q : String) (rows : List (List Value)) :
    countEv isRollback (rows.map (Ev.execute q)) = 0 := by
  induction rows with
  | nil => rfl
  | cons v vs ih => rw [List.map_cons, countEv_cons_neg rfl, ih]

/-- A successful insert loop produced exactly one execute event per record,
all sharing the statement text `q`, and each staged row is the looked-up
value list of one of the records. -/
theorem insertLoop_ok_shape (oracle : Oracle) (q : String) (cols : List String) :
    ∀ (rs : List PyDict) (k : Nat) (rows : List (List Value)) (tr : List Ev),
      insertLoop oracle q cols rs k = .ok (rows, tr) →
      tr = rows.map (Ev.execute q) ∧ rows.length = rs.length ∧
        ∀ v ∈ rows, ∃ r ∈ rs, lookupAll r cols = .ok v := by
  intro rs
  induction rs with
  | nil =>
    intro k rows tr h
    simp only [insertLoop] at h
    obtain ⟨h1, h2⟩ := Prod.mk.injEq .. ▸ (Except.ok.inj h)
    subst h1; subst h2
    simp
  | cons r rest ih =>
    intro k rows tr h
    simp only [insertLoop] at h
    cases hl : lookupAll r cols with
    | error e => rw [hl] at h; simp at h
    | ok values =>
      rw [hl] at h
      cases he : oracle.execErr k with
      | some e => rw [he] at h; simp at h
      | none =>
        rw [he] at h
        cases hrec : insertLoop oracle q cols rest (k + 1) with
        | error p => rw [hrec] at h; simp at h
        | ok p =>
          rw [hrec] at h
          obtain ⟨rows', tr'⟩ := p
          obtain ⟨h1, h2⟩ := Prod.mk.injEq .. ▸ (Except.ok.inj h)
          subst h1; subst h2
          obtain ⟨htr, hlen, hmem⟩ := ih (k + 1) rows' tr' hrec
          refine ⟨by simp [htr], by simp [hlen], ?_⟩
          intro v hv
          rcases List.mem_cons.mp hv with rfl | hv'
          · exact ⟨r, List.mem_cons_self .., hl⟩
          · obtain ⟨r', hr', hlook⟩ := hmem v hv'
            exact ⟨r', List.mem_cons_of_mem _ hr', hlook⟩

/-- A failed insert loop had completed some prefix of iterations: its events
are all executes of the shared statement, each binding the looked-up values
of one of the records. -/
theorem insertLoop_err_shape (oracle : Oracle) (q : String) (cols : List String) :
    ∀ (rs : List PyDict) (k : Nat) (e : PyErr) (tr : List Ev),
      insertLoop oracle q cols rs k = .error (e, tr) →
      ∃ rows : List (List Value), tr = rows.map (Ev.execute q) ∧
        ∀ v ∈ rows, ∃ r ∈ rs, lookupAll r cols = .ok v := by
  intro rs
  induction rs with
  | nil =>
    intro k e tr h
    simp only [insertLoop] at h
    simp at h
  | cons r rest ih =>
    intro k e tr h
    simp only [insertLoop] at h
    cases hl : lookupAll r cols with
    | error e' =>
      rw [hl] at h
      obtain ⟨h1, h2⟩ := Prod.mk.injEq .. ▸ (Except.error.inj h)
      subst h2
      exact ⟨[], by simp⟩
    | ok values =>
      rw [hl] at h
      cases he : oracle.execErr k with
      | some e' =>
        rw [he] at h
        obtain ⟨h1, h2⟩ := Prod.mk.injEq .. ▸ (Except.error.inj h)
        subst h2
        exact ⟨[], by simp⟩
      | none =>
        rw [he] at h
        cases hrec : insertLoop oracle q cols rest (k + 1) with
        | error p =>
          rw [hrec] at h
          obtain ⟨e'', tr''⟩ := p
          obtain ⟨h1, h2⟩ := Prod.mk.injEq .. ▸ (Except.error.inj h)
          subst h1; subst h2
          obtain ⟨rows', htr', hmem⟩ := ih (k + 1) e'' tr'' hrec
          refine ⟨values :: rows', by simp [htr'], ?_⟩
          intro v hv
          rcases List.mem_cons.mp hv with rfl | hv'
          · exact ⟨r, List.mem_cons_self .., hl⟩
          · obtain ⟨r', hr', hlook⟩ := hmem v hv'
            exact ⟨r', List.mem_cons_of_mem _ hr', hlook⟩
        | ok p => rw [hrec] at h; simp at h

/-! ## Claim C10 -/

/-- C10: an insert_data call whose data argument is an empty list returns
the fixed message "No data to insert" without executing any INSERT statement
and without raising an error; the table is unchanged. -/
theorem insert_empty_list_no_op (oracle : Oracle) (table : List (List Value))
    (t : String) (hconn : oracle.connectErr = none) :
    insertData oracle table t (.many []) =
      { result := .ok "No data to insert", trace := [Ev.connect, Ev.close], table := table } := by
  simp [insertData, hconn, recordsOf, insertConnected]

/-- Witness for C10 at a concrete call. -/
theorem insert_empty_list_no_op_witness :
    insertData {} [] "t" (.many []) =
      { result := .ok "No data to insert", trace := [Ev.connect, Ev.close], table := [] } :=
  insert_empty_list_no_op {} [] "t" rfl

/-! ## Claim C7 -/

/-- C7 counterexample: update_data with an empty updates mapping does NOT
fail with a ValidationError before touching the database.  It opens a
connection and executes the malformed statement `UPDATE t SET  WHERE 1=1`
(note the empty SET list), returning success when the database accepts it;
the claimed pre-database ValidationError never happens. -/
theorem update_empty_updates_counterexample :
    updateData {} "t" [] "1=1" =
      { result := .ok "Updated 0 record(s)",
        trace := [Ev.connect, Ev.execute "UPDATE t SET  WHERE 1=1" [], Ev.commit, Ev.close] } := by
  rfl

/-- C7 amended: update_data performs no emptiness validation at all.  For an
empty updates mapping it opens a connection and executes
`UPDATE <table> SET  WHERE <whereClause>` with an empty bound-value list;
whatever failure occurs comes from the database, not from a ValidationError
raised beforehand. -/
theorem update_empty_updates_executes_malformed_sql (oracle : Oracle) (t w : String)
    (hconn : oracle.connectErr = none) (hexec : oracle.execErr 0 = none) :
    updateData oracle t [] w =
      { result := .ok ("Updated " ++ toString oracle.rowcount ++ " record(s)"),
        trace := [Ev.connect, Ev.execute (updateQuery t [] w) [], Ev.commit, Ev.close] } := by
  simp [updateData, hconn, hexec]

/-- Witness for the amended C7 at a concrete call. -/
theorem update_empty_updates_witness :
    updateData {} "t" [] "1=1" =
      { result := .ok ("Updated " ++ toString (0 : Nat) ++ " record(s)"),
        trace := [Ev.connect, Ev.execute (updateQuery "t" [] "1=1") [], Ev.commit, Ev.close] } :=
  update_empty_updates_executes_malformed_sql {} "t" "1=1" rfl rfl

/-! ## Claim C8 -/

/-- C8 counterexample: create_table with an empty columns list does NOT fail
with a ValidationError before any statement is executed.  It opens a
connection and executes `CREATE TABLE t ()`; the claimed pre-database
ValidationError never happens. -/
theorem create_table_empty_columns_counterexample :
    createTable {} "t" [] =
      { result := .ok "Table \x27t\x27 created successfully",
        trace := [Ev.connect, Ev.execute "CREATE TABLE t ()" [], Ev.commit, Ev.close] } := by
  rfl

/-- C8 amended: create_table performs no emptiness validation.  For an empty
columns list it opens a connection and executes `CREATE TABLE <name> ()`;
whatever failure occurs comes from the database, not from a ValidationError
raised beforehand. -/
theorem create_table_empty_columns_executes (oracle : Oracle) (t : String)
    (hconn : oracle.connectErr = none) (hexec : oracle.execErr 0 = none) :
    createTable oracle t [] =
      { result := .ok ("Table \x27" ++ t ++ "\x27 created successfully"),
        trace := [Ev.connect, Ev.execute (createTableQuery t []) [], Ev.commit, Ev.close] } := by
  simp [createTable, hconn, hexec]

/-- Witness for the amended C8 at a concrete call. -/
theorem create_table_empty_columns_witness :
    createTable {} "t" [] =
      { result := .ok ("Table \x27" ++ "t" ++ "\x27 created successfully"),
        trace := [Ev.connect, Ev.execute (createTableQuery "t" []) [], Ev.commit, Ev.close] } :=
  create_table_empty_columns_executes {} "t" rfl rfl

/-! ## Claim C1 -/

/-- C1 counterexample: a table name containing the statement terminator `;`
(and quoting-relevant characters) is NOT rejected with a ValidationError by
drop_table — it is concatenated verbatim into the SQL text, the statement is
executed and the call reports success. -/
theorem dropTable_semicolon_identifier_executed :
    dropTable {} "users; DROP TABLE students; --" =
      { result := .ok "Table \x27users; DROP TABLE students; --\x27 dropped successfully",
        trace := [Ev.connect,
                  Ev.execute "DROP TABLE users; DROP TABLE students; --" [],
                  Ev.commit, Ev.close] } := by
  rfl

/-- C1 amended: no identifier-safety check exists anywhere.  describe_table
passes the table name as a bound parameter, while drop_table, insert_data,
update_data, create_table and create_index concatenate caller-supplied
identifiers verbatim into the SQL text — for every identifier, including
ones containing statement-terminator or quoting characters, no
ValidationError is raised and the built statement is executed.  The
create_table conjuncts show its table name concatenated verbatim into the
executed statement and its per-column fragments built from the
caller-supplied column names and types. -/
theorem identifiers_interpolated_without_check :
    (∀ (oracle : Oracle) (name : String),
      oracle.connectErr = none → oracle.execErr 0 = none →
      dropTable oracle name =
        { result := .ok ("Table \x27" ++ name ++ "\x27 dropped successfully"),
          trace := [Ev.connect, Ev.execute ("DROP TABLE " ++ name) [], Ev.commit, Ev.close] }) ∧
    (∀ (t : String) (cols : List String),
      insertQuery t cols =
        "INSERT INTO " ++ t ++ " (" ++ String.intercalate "," cols ++ ") VALUES (" ++
          String.intercalate "," (List.replicate cols.length "%s") ++ ")") ∧
    (∀ (t w : String) (cols : List String),
      updateQuery t cols w =
        "UPDATE " ++ t ++ " SET " ++
          String.intercalate ", " (cols.map fun col => col ++ " = %s") ++ " WHERE " ++ w) ∧
    (∀ (t : String) (cols : List ColumnDef),
      createTableQuery t cols =
        "CREATE TABLE " ++ t ++ " (" ++
          String.intercalate ", "
            (if (collectColDefs cols).2 = [] then (collectColDefs cols).1
             else (collectColDefs cols).1 ++
               ["PRIMARY KEY (" ++ String.intercalate ", " (collectColDefs cols).2 ++ ")"]) ++
          ")" ∧
      (collectColDefs cols).1 =
        cols.map fun col =>
          col.name ++ " " ++ col.type ++ (if !col.nullable then " NOT NULL" else "")) ∧
    (∀ (oracle : Oracle) (t : String) (cols : List ColumnDef),
      oracle.connectErr = none → oracle.execErr 0 = none →
      createTable oracle t cols =
        { result := .ok ("Table \x27" ++ t ++ "\x27 created successfully"),
          trace := [Ev.connect, Ev.execute (createTableQuery t cols) [],
                    Ev.commit, Ev.close] }) ∧
    (∀ (t idx : String) (cols : List String) (u : Bool),
      createIndexQuery t idx cols u =
        "CREATE " ++ (if u then "UNIQUE " else "") ++ "INDEX " ++ idx ++ " ON " ++ t ++
          " (" ++ String.intercalate ", " cols ++ ")") ∧
    (∀ (oracle : Oracle) (name : String),
      oracle.connectErr = none → oracle.execErr 0 = none →
      (describeTable oracle name).trace =
        [Ev.connect, Ev.execute describeTableQuery [Value.str name], Ev.close]) := by
  refine ⟨?_, fun t cols => rfl, fun t w cols => rfl,
    fun t cols => ⟨rfl, collectColDefs_fst cols⟩, ?_, fun t idx cols u => rfl, ?_⟩
  · intro oracle name hconn hexec
    simp [dropTable, dropTableQuery, hconn, hexec]
  · intro oracle t cols hconn hexec
    simp [createTable, hconn, hexec]
  · intro oracle name hconn hexec
    rcases Decidable.em (oracle.fetchColumns = []) with h | h <;>
      simp [describeTable, hconn, hexec, h]

/-- Witness for the amended C1 at concrete malicious identifiers: drop_table
executes the injected name verbatim, and create_table executes a statement
whose text embeds the injected table name. -/
theorem identifiers_interpolated_witness :
    dropTable {} "x\x27; --" =
      { result := .ok ("Table \x27" ++ "x\x27; --" ++ "\x27 dropped successfully"),
        trace := [Ev.connect, Ev.execute ("DROP TABLE " ++ "x\x27; --") [],
                  Ev.commit, Ev.close] } ∧
    createTable {} "t (x INT); DROP TABLE users; --" [{ name := "a", type := "INT" }] =
      { result := .ok ("Table \x27" ++ "t (x INT); DROP TABLE users; --" ++
          "\x27 created successfully"),
        trace := [Ev.connect,
                  Ev.execute (createTableQuery "t (x INT); DROP TABLE users; --"
                    [{ name := "a", type := "INT" }]) [],
                  Ev.commit, Ev.close] } :=
  ⟨identifiers_interpolated_without_check.1 {} "x\x27; --" rfl rfl,
   identifiers_interpolated_without_check.2.2.2.2.1 {}
     "t (x INT); DROP TABLE users; --" [{ name := "a", type := "INT" }] rfl rfl⟩

/-! ## Claim C9 -/

/-- C9: when two or more columns are flagged primaryKey, the built CREATE
TABLE statement carries exactly one trailing composite
`PRIMARY KEY (c1, c2, ...)` clause listing those columns in their given
order, appended after the per-column `name type [NOT NULL]` definitions —
not a separate constraint per column. -/
theorem create_table_single_composite_primary_key (t : String) (columns : List ColumnDef)
    (h : 2 ≤ ((columns.filter fun c => c.primaryKey).map ColumnDef.name).length) :
    createTableQuery t columns =
      "CREATE TABLE " ++ t ++ " (" ++
        String.intercalate ", "
          ((collectColDefs columns).1 ++
            ["PRIMARY KEY (" ++
              String.intercalate ", "
                ((columns.filter fun c => c.primaryKey).map ColumnDef.name) ++ ")"]) ++ ")" ∧
    (collectColDefs columns).2 = (columns.filter fun c => c.primaryKey).map ColumnDef.name ∧
    (collectColDefs columns).1 =
      columns.map fun col =>
        col.name ++ " " ++ col.type ++ (if !col.nullable then " NOT NULL" else "") := by
  have hsnd := collectColDefs_snd columns
  have hne : (columns.filter fun c => c.primaryKey).map ColumnDef.name ≠ [] := by
    intro hnil
    rw [hnil] at h
    simp at h
  refine ⟨?_, hsnd, collectColDefs_fst columns⟩
  simp only [createTableQuery, hsnd, if_neg hne]

/-- Witness for C9: two primary-key columns yield a single composite
trailing clause. -/
theorem create_table_composite_pk_witness :
    createTableQuery "t"
        [{ name := "a", type := "INT", primaryKey := true },
         { name := "b", type := "INT", primaryKey := true }] =
      "CREATE TABLE t (a INT, b INT, PRIMARY KEY (a, b))" := by
  rw [(create_table_single_composite_primary_key "t"
        [{ name := "a", type := "INT", primaryKey := true },
         { name := "b", type := "INT", primaryKey := true }] (by decide)).1]
  rfl

/-! ## Claim C4 -/

/-- C4: read_data raises its ValidationError if and only if the trimmed,
uppercased query text does not start with "SELECT"; a rejected query
produces no database event at all, and an accepted query is sent to the
database verbatim as the single executed statement, with no bound values. -/
theorem read_select_gate :
    (∀ (oracle : Oracle) (q : String),
      ((readData oracle q).result = .error (.valueError "Query must start with SELECT") ↔
        pyStartsWith (pyUpper (pyStrip q)) "SELECT" = false)) ∧
    (∀ (oracle : Oracle) (q : String),
      pyStartsWith (pyUpper (pyStrip q)) "SELECT" = false →
      (readData oracle q).trace = []) ∧
    (∀ (oracle : Oracle) (q : String),
      pyStartsWith (pyUpper (pyStrip q)) "SELECT" = true →
      oracle.connectErr = none → oracle.execErr 0 = none →
      (readData oracle q).trace = [Ev.connect, Ev.execute q [], Ev.close]) := by
  refine ⟨?_, ?_, ?_⟩
  · intro oracle q
    cases hc : pyStartsWith (pyUpper (pyStrip q)) "SELECT" with
    | false => simp [readData, hc]
    | true =>
      simp only [readData, hc, Bool.not_true, Bool.false_eq_true, if_false]
      cases h1 : oracle.connectErr with
      | some e => simp
      | none =>
        cases h2 : oracle.execErr 0 with
        | some e => simp
        | none => simp
  · intro oracle q hc
    simp [readData, hc]
  · intro oracle q hc h1 h2
    simp [readData, hc, h1, h2]

/-- Witness for C4: " select 1" (leading whitespace, lower case) is accepted
and executed verbatim, while "INSERT INTO t VALUES (1)" is rejected with the
ValidationError. -/
theorem read_select_gate_witness :
    (readData {} " select 1").trace = [Ev.connect, Ev.execute " select 1" [], Ev.close] ∧
    (readData {} "INSERT INTO t VALUES (1)").result =
      .error (.valueError "Query must start with SELECT") := by
  constructor
  · exact read_select_gate.2.2 {} " select 1" (by decide) rfl rfl
  · exact (read_select_gate.1 {} "INSERT INTO t VALUES (1)").mpr (by decide)

/-! ## Claim C2 -/

/-- C2: for a list of records, a successful insert_data call executed
exactly one parameterized INSERT per record followed by a single commit
after the loop, appending the staged rows to the table; a failed call
(whatever iteration raised) performed no commit, invoked rollback exactly
once before the error propagates, and left the committed table state exactly
as it was before the call. -/
theorem insert_transactional_atomicity (oracle : Oracle) (table : List (List Value))
    (t : String) (records : List PyDict)
    (hconn : oracle.connectErr = none) (hne : records ≠ []) :
    (resOk (insertData oracle table t (.many records)).result = true →
      ∃ rows : List (List Value),
        (insertData oracle table t (.many records)).trace =
          Ev.connect ::
            (rows.map (Ev.execute (insertQuery t ((records.headD []).map Prod.fst))) ++
              [Ev.commit, Ev.close]) ∧
        rows.length = records.length ∧
        countEv isExec (insertData oracle table t (.many records)).trace = records.length ∧
        countEv isCommit (insertData oracle table t (.many records)).trace = 1 ∧
        (insertData oracle table t (.many records)).table = table ++ rows) ∧
    (resOk (insertData oracle table t (.many records)).result = false →
      countEv isCommit (insertData oracle table t (.many records)).trace = 0 ∧
      countEv isRollback (insertData oracle table t (.many records)).trace = 1 ∧
      (insertData oracle table t (.many records)).table = table) := by
  have hred : insertData oracle table t (.many records) =
      insertConnected oracle table t records := by
    simp [insertData, hconn, recordsOf]
  rw [hred]
  have hempty : records.isEmpty = false := by
    cases records with
    | nil => exact absurd rfl hne
    | cons r rs => rfl
  simp only [insertConnected, hempty, Bool.false_eq_true, if_false]
  cases hloop : insertLoop oracle (insertQuery t ((records.headD []).map Prod.fst))
      ((records.headD []).map Prod.fst) records 0 with
  | error p =>
    obtain ⟨e, tr⟩ := p
    obtain ⟨rows, htr, _⟩ :=
      insertLoop_err_shape oracle (insertQuery t ((records.headD []).map Prod.fst))
        ((records.headD []).map Prod.fst) records 0 e tr hloop
    subst htr
    constructor
    · intro hok
      simp [resOk] at hok
    · intro _
      refine ⟨?_, ?_, rfl⟩
      · rw [countEv_cons_neg rfl, countEv_append, countEv_commit_execs]
        rfl
      · rw [countEv_cons_neg rfl, countEv_append, countEv_rollback_execs]
        rfl
  | ok p =>
    obtain ⟨rows, tr⟩ := p
    obtain ⟨htr, hlen, _⟩ :=
      insertLoop_ok_shape oracle (insertQuery t ((records.headD []).map Prod.fst))
        ((records.headD []).map Prod.fst) records 0 rows tr hloop
    subst htr
    constructor
    · intro _
      refine ⟨rows, rfl, hlen, ?_, ?_, rfl⟩
      · rw [countEv_cons_neg rfl, countEv_append, countEv_exec_execs, hlen]
        rfl
      · rw [countEv_cons_neg rfl, countEv_append, countEv_commit_execs]
        rfl
    · intro hbad
      simp [resOk] at hbad

/-- Witness for C2: inserting two one-column records executes two bound
statements, commits once, and appends both rows to the table. -/
theorem insert_transactional_atomicity_witness :
    countEv isExec
        (insertData {} [] "t" (.many [[("a", Value.int 1)], [("a", Value.int 2)]])).trace = 2 ∧
    countEv isCommit
        (insertData {} [] "t" (.many [[("a", Value.int 1)], [("a", Value.int 2)]])).trace = 1 ∧
    (insertData {} [] "t" (.many [[("a", Value.int 1)], [("a", Value.int 2)]])).table =
      [[Value.int 1], [Value.int 2]] := by
  obtain ⟨rows, htr, hlen, hexec, hcommit, htable⟩ :=
    (insert_transactional_atomicity {} [] "t" [[("a", Value.int 1)], [("a", Value.int 2)]]
      rfl (by decide)).1 rfl
  exact ⟨hexec, hcommit, rfl⟩

/-! ## Claim C3 -/

/-- C3 counterexample: under the read-only flag, invoking insert_data does
not yield a distinct PolicyViolation error.  The response is the literal
text `Unknown tool: insert_data` — exactly the same shape of response an
entirely unrecognized operation name receives — though no statement is
executed.  By contrast, the same call with the flag clear executes and
commits the insert. -/
theorem readonly_insert_rejected_as_unknown_tool :
    callTool true {} [] "insert_data"
        [("tableName", Arg.str "t"), ("data", Arg.obj [("a", Value.int 1)])] =
      { text := "Unknown tool: insert_data", trace := [], table := [] } ∧
    callTool true {} [] "no_such_tool" [] =
      { text := "Unknown tool: no_such_tool", trace := [], table := [] } ∧
    callTool false {} [] "insert_data"
        [("tableName", Arg.str "t"), ("data", Arg.obj [("a", Value.int 1)])] =
      { text := "Inserted 1 record(s)",
        trace := [Ev.connect, Ev.execute "INSERT INTO t (a) VALUES (%s)" [Value.int 1],
                  Ev.commit, Ev.close],
        table := [[Value.int 1]] } := by
  exact ⟨rfl, rfl, rfl⟩

/-- C3 amended: with the read-only flag set, the advertised catalog contains
exactly the three non-mutating tools, and invoking any of the five mutating
tools directly falls through every dispatcher branch: no statement is
executed and the caller gets the generic `Unknown tool: <name>` response
(the same response as an unrecognized name), not a distinct PolicyViolation
error. -/
theorem readonly_catalog_and_rejection :
    (listTools true).map ToolDecl.name = ["list_table", "describe_table", "read_data"] ∧
    ∀ n ∈ (["insert_data", "update_data", "create_table", "create_index",
            "drop_table"] : List String),
      (∀ d ∈ listTools true, d.name ≠ n) ∧
      ∀ (oracle : Oracle) (table : List (List Value)) (args : ArgBag),
        callTool true oracle table n args =
          { text := "Unknown tool: " ++ n, trace := [], table := table } := by
  refine ⟨rfl, ?_⟩
  intro n hn
  simp only [List.mem_cons, List.not_mem_nil, or_false] at hn
  rcases hn with rfl | rfl | rfl | rfl | rfl <;>
    exact ⟨by decide, fun oracle table args => rfl⟩

/-- Witness for the amended C3 at a concrete mutating tool call. -/
theorem readonly_rejection_witness :
    callTool true {} [] "drop_table" [("tableName", Arg.str "t")] =
      { text := "Unknown tool: " ++ "drop_table", trace := [], table := [] } :=
  (readonly_catalog_and_rejection.2 "drop_table" (by decide)).2 {} [] [("tableName", Arg.str "t")]

/-! ## Claim C6 -/

/-- C6 counterexample: a connection failure during read_data is converted to
the single text `Error occurred: Connection refused`, which describes the
underlying cause but does not name the operation: the response does not
contain the operation name read_data as a substring. -/
theorem error_text_lacks_operation_name :
    callTool false { connectErr := some "Connection refused" } [] "read_data"
        [("query", Arg.str "SELECT 1")] =
      { text := "Error occurred: Connection refused", trace := [], table := [] } ∧
    strContains "Error occurred: Connection refused" "read_data" = false := by
  exact ⟨rfl, by decide⟩

/-- C6 amended: every exception raised inside the try block — argument
extraction, connection acquisition, statement building or execution — is
caught at the dispatcher boundary and converted into the single text
response `Error occurred: str(e)` describing the underlying cause (without
naming the operation); in particular a connection failure in any of the
eight operations surfaces this way, and no failure propagates uncaught. -/
theorem dispatcher_catches_all_errors :
    (∀ (readonly : Bool) (oracle : Oracle) (table : List (List Value)) (name : String)
        (args : ArgBag) (e : PyErr) (tr : List Ev) (tb : List (List Value)),
      dispatch readonly oracle table name args = (.error e, tr, tb) →
      callTool readonly oracle table name args =
        { text := "Error occurred: " ++ PyErr.toMessage e, trace := tr, table := tb }) ∧
    (∀ (readonly : Bool) (oracle : Oracle) (table : List (List Value)) (name : String)
        (args : ArgBag) (r : String) (tr : List Ev) (tb : List (List Value)),
      dispatch readonly oracle table name args = (.ok r, tr, tb) →
      callTool readonly oracle table name args = { text := r, trace := tr, table := tb }) ∧
    (∀ (msg : String) (table : List (List Value)),
      callTool false { connectErr := some msg } table "list_table" [] =
        { text := "Error occurred: " ++ msg, trace := [], table := table }) ∧
    (∀ (msg t : String) (table : List (List Value)),
      callTool false { connectErr := some msg } table "describe_table"
          [("tableName", Arg.str t)] =
        { text := "Error occurred: " ++ msg, trace := [], table := table }) ∧
    (∀ (msg : String) (table : List (List Value)),
      callTool false { connectErr := some msg } table "read_data"
          [("query", Arg.str "SELECT 1")] =
        { text := "Error occurred: " ++ msg, trace := [], table := table }) ∧
    (∀ (msg t : String) (r : PyDict) (table : List (List Value)),
      callTool false { connectErr := some msg } table "insert_data"
          [("tableName", Arg.str t), ("data", Arg.obj r)] =
        { text := "Error occurred: " ++ msg, trace := [], table := table }) ∧
    (∀ (msg t w : String) (u : PyDict) (table : List (List Value)),
      callTool false { connectErr := some msg } table "update_data"
          [("tableName", Arg.str t), ("updates", Arg.obj u), ("whereClause", Arg.str w)] =
        { text := "Error occurred: " ++ msg, trace := [], table := table }) ∧
    (∀ (msg t : String) (cs : List ColumnDef) (table : List (List Value)),
      callTool false { connectErr := some msg } table "create_table"
          [("tableName", Arg.str t), ("columns", Arg.colList cs)] =
        { text := "Error occurred: " ++ msg, trace := [], table := table }) ∧
    (∀ (msg t idx : String) (cs : List String) (table : List (List Value)),
      callTool false { connectErr := some msg } table "create_index"
          [("tableName", Arg.str t), ("indexName", Arg.str idx),
           ("columns", Arg.strList cs)] =
        { text := "Error occurred: " ++ msg, trace := [], table := table }) ∧
    (∀ (msg t : String) (table : List (List Value)),
      callTool false { connectErr := some msg } table "drop_table"
          [("tableName", Arg.str t)] =
        { text := "Error occurred: " ++ msg, trace := [], table := table }) := by
  refine ⟨?_, ?_, fun msg table => rfl, fun msg t table => rfl, fun msg table => rfl,
    fun msg t r table => rfl, fun msg t w u table => rfl, fun msg t cs table => rfl,
    fun msg t idx cs table => rfl, fun msg t table => rfl⟩
  · intro readonly oracle table name args e tr tb h
    simp [callTool, h]
  · intro readonly oracle table name args r tr tb h
    simp [callTool, h]

/-- Witness for the amended C6 at a concrete failing call. -/
theorem dispatcher_catches_witness :
    callTool false { connectErr := some "boom" } [] "drop_table" [("tableName", Arg.str "t")] =
      { text := "Error occurred: " ++ PyErr.toMessage (.dbError "boom"),
        trace := [], table := [] } :=
  dispatcher_catches_all_errors.1 false { connectErr := some "boom" } [] "drop_table"
    [("tableName", Arg.str "t")] (.dbError "boom") [] [] rfl

/-! ## Claim C5 -/

/-- C5: caller-controlled data values never reach the SQL text.  For
list_tables the executed text is a function of the number of schemas only
(one placeholder each) and the schema values appear solely in the bound
value list; for insert_data every execute event in any run carries the
statement built from the table name and the first record's keys, its bound
values being the looked-up values of one of the records; for update_data
the executed text is built from the table name, the updates keys and the
whereClause only, with the SET values appearing solely in the bound value
list. -/
theorem values_bound_not_concatenated :
    (∀ (oracle : Oracle) (schemas : List String), schemas ≠ [] →
      oracle.connectErr = none → oracle.execErr 0 = none →
      (listTables oracle schemas).trace =
        [Ev.connect,
         Ev.execute (listTablesFilteredQuery schemas.length) (schemas.map Value.str),
         Ev.close]) ∧
    (∀ (oracle : Oracle) (table : List (List Value)) (t : String) (data : InsertArg),
      ∀ e ∈ (insertData oracle table t data).trace, isExec e = true →
        ∃ vs : List Value,
          e = Ev.execute (insertQuery t (((recordsOf data).headD []).map Prod.fst)) vs ∧
          ∃ r ∈ recordsOf data,
            lookupAll r (((recordsOf data).headD []).map Prod.fst) = .ok vs) ∧
    (∀ (oracle : Oracle) (t : String) (updates : PyDict) (w : String),
      oracle.connectErr = none → oracle.execErr 0 = none →
      updateData oracle t updates w =
        { result := .ok ("Updated " ++ toString oracle.rowcount ++ " record(s)"),
          trace := [Ev.connect,
                    Ev.execute (updateQuery t (updates.map Prod.fst) w) (updates.map Prod.snd),
                    Ev.commit, Ev.close] }) := by
  refine ⟨?_, ?_, ?_⟩
  · intro oracle schemas hne hconn hexec
    simp [listTables, hconn, hexec, hne]
  · intro oracle table t data e hmem hex
    cases hc : oracle.connectErr with
    | some msg => simp [insertData, hc] at hmem
    | none =>
      have hred : insertData oracle table t data =
          insertConnected oracle table t (recordsOf data) := by
        simp [insertData, hc]
      rw [hred] at hmem
      cases hemp : (recordsOf data).isEmpty with
      | true =>
        simp only [insertConnected, hemp, if_true] at hmem
        simp only [List.mem_cons, List.not_mem_nil, or_false] at hmem
        rcases hmem with rfl | rfl <;> simp [isExec] at hex
      | false =>
        cases hloop : insertLoop oracle
            (insertQuery t (((recordsOf data).headD []).map Prod.fst))
            (((recordsOf data).headD []).map Prod.fst) (recordsOf data) 0 with
        | error p =>
          obtain ⟨err, tr⟩ := p
          obtain ⟨rows, htr, hrows⟩ := insertLoop_err_shape oracle _ _ (recordsOf data) 0
            err tr hloop
          subst htr
          have htr_eq : (insertConnected oracle table t (recordsOf data)).trace =
              Ev.connect ::
                (rows.map (Ev.execute (insertQuery t (((recordsOf data).headD []).map Prod.fst))) ++
                  [Ev.rollback, Ev.close]) := by
            simp only [insertConnected, hemp, Bool.false_eq_true, if_false]
            rw [hloop]
          rw [htr_eq] at hmem
          rcases List.mem_cons.mp hmem with rfl | hmem1
          · simp [isExec] at hex
          · rcases List.mem_append.mp hmem1 with hmap | htail
            · obtain ⟨v, hv, rfl⟩ := List.mem_map.mp hmap
              exact ⟨v, rfl, hrows v hv⟩
            · simp only [List.mem_cons, List.not_mem_nil, or_false] at htail
              rcases htail with rfl | rfl <;> simp [isExec] at hex
        | ok p =>
          obtain ⟨rows, tr⟩ := p
          obtain ⟨htr, hlen, hrows⟩ := insertLoop_ok_shape oracle _ _ (recordsOf data) 0
            rows tr hloop
          subst htr
          have htr_eq : (insertConnected oracle table t (recordsOf data)).trace =
              Ev.connect ::
                (rows.map (Ev.execute (insertQuery t (((recordsOf data).headD []).map Prod.fst))) ++
                  [Ev.commit, Ev.close]) := by
            simp only [insertConnected, hemp, Bool.false_eq_true, if_false]
            rw [hloop]
          rw [htr_eq] at hmem
          rcases List.mem_cons.mp hmem with rfl | hmem1
          · simp [isExec] at hex
          · rcases List.mem_append.mp hmem1 with hmap | htail
            · obtain ⟨v, hv, rfl⟩ := List.mem_map.mp hmap
              exact ⟨v, rfl, hrows v hv⟩
            · simp only [List.mem_cons, List.not_mem_nil, or_false] at htail
              rcases htail with rfl | rfl <;> simp [isExec] at hex
  · intro oracle t updates w hconn hexec
    simp [updateData, hconn, hexec]

/-- Witness for C5: a filtered list_tables binds its one schema value, and
an update binds its one SET value, neither appearing in the SQL text. -/
theorem values_bound_witness :
    (listTables {} ["dbo"]).trace =
      [Ev.connect, Ev.execute (listTablesFilteredQuery 1) [Value.str "dbo"], Ev.close] ∧
    updateData {} "t" [("a", Value.int 1)] "b = 2" =
      { result := .ok ("Updated " ++ toString (0 : Nat) ++ " record(s)"),
        trace := [Ev.connect, Ev.execute (updateQuery "t" ["a"] "b = 2") [Value.int 1],
                  Ev.commit, Ev.close] } := by
  constructor
  · exact values_bound_not_concatenated.1 {} ["dbo"] (by decide) rfl rfl
  · exact values_bound_not_concatenated.2.2 {} "t" [("a", Value.int 1)] "b = 2" rfl rfl

end ClimateMssql
